import Mathlib

/-!
Verification of the descriptor-resolution core of the `grr` graphics layer.

The definitions below are shallow embeddings of the Rust source:
  * `src/buffer.rs`  — memory/mapping flag translation (`create_buffer_impl`,
    `map_buffer`),
  * `src/image.rs`   — image target resolution and storage dispatch
    (`create_image`, `ImageType::view_ty`),
  * `src/format.rs`  — `Format::base_format`, `BaseFormat::num_components`,
  * `src/vertex.rs`  — vertex attribute format resolution
    (`create_vertex_array`),
  * `src/pipeline.rs` — pipeline state replay (`bind_color_blend_state`,
    `bind_depth_stencil_state`) and shader/pipeline creation
    (`create_shader`, `create_graphics_pipeline`).

Calls into the underlying GL context are modelled as explicit call lists;
bitfields are modelled as natural-number bitmasks with the numeric values of
the corresponding GL constants.
-/

namespace Grr

/-! ## GL bitfield constants (numeric values from the GL registry) -/

def MAP_READ_BIT : Nat := 0x0001
def MAP_WRITE_BIT : Nat := 0x0002
def MAP_UNSYNCHRONIZED_BIT : Nat := 0x0020
def MAP_PERSISTENT_BIT : Nat := 0x0040
def MAP_COHERENT_BIT : Nat := 0x0080
def DYNAMIC_STORAGE_BIT : Nat := 0x0100
def CLIENT_STORAGE_BIT : Nat := 0x0200

/-! ## `MemoryFlags` / `MappingFlags` (src/buffer.rs, `bitflags!`)

`MemoryFlags` is a bitmask over five bits; `MappingFlags` has the single
`UNSYNCHRONIZED` bit. `contains` is the bitflags containment test
`self.bits & other.bits == other.bits`. -/

def MemoryFlags.DEVICE_LOCAL : Nat := 0x1
def MemoryFlags.COHERENT : Nat := 0x2
def MemoryFlags.CPU_MAP_READ : Nat := 0x4
def MemoryFlags.CPU_MAP_WRITE : Nat := 0x8
def MemoryFlags.DYNAMIC : Nat := 0x10

def MappingFlags.UNSYNCHRONIZED : Nat := 0x1

/-- bitflags `contains`: all bits of `flag` are present in `self`. -/
def flagsContains (self flag : Nat) : Bool :=
  self.land flag == flag

/-- The creation-flag computation of `Device::create_buffer_impl`
(src/buffer.rs lines 40–58): a running bitmask built with `|=`. -/
def create_buffer_flags (memory : Nat) : Nat :=
  let flags : Nat := 0
  let flags := if !flagsContains memory MemoryFlags.DEVICE_LOCAL
    then flags.lor CLIENT_STORAGE_BIT else flags
  let flags := if flagsContains memory MemoryFlags.COHERENT
    then flags.lor (MAP_COHERENT_BIT.lor MAP_PERSISTENT_BIT) else flags
  let flags := if flagsContains memory MemoryFlags.CPU_MAP_READ
    then flags.lor (MAP_READ_BIT.lor MAP_PERSISTENT_BIT) else flags
  let flags := if flagsContains memory MemoryFlags.CPU_MAP_WRITE
    then flags.lor (MAP_WRITE_BIT.lor MAP_PERSISTENT_BIT) else flags
  let flags := if flagsContains memory MemoryFlags.DYNAMIC
    then flags.lor DYNAMIC_STORAGE_BIT else flags
  flags

/-- The access-flag computation of `Device::map_buffer`
(src/buffer.rs lines 126–135). `stored` is the creation bitmask remembered in
the `Buffer` handle (`buffer.1`); `mapping` is the requested `MappingFlags`
bitmask. -/
def map_buffer_flags (stored mapping : Nat) : Nat :=
  let flags : Nat := 0
  let flags := if flagsContains mapping MappingFlags.UNSYNCHRONIZED
    then flags.lor MAP_UNSYNCHRONIZED_BIT else flags
  flags.lor (stored.land
    (MAP_COHERENT_BIT.lor (MAP_PERSISTENT_BIT.lor
      (MAP_READ_BIT.lor MAP_WRITE_BIT))))

/-- The mask `map_buffer` intersects the stored creation flags with. -/
def mapMask : Nat :=
  MAP_COHERENT_BIT.lor (MAP_PERSISTENT_BIT.lor (MAP_READ_BIT.lor MAP_WRITE_BIT))

/-! ## Image shapes and target resolution (src/image.rs) -/

/-- `ImageType` (src/image.rs lines 44–81). Field widths (`u32`) are modelled
as `Nat`; the resolution logic only pattern-matches on literal `1`. -/
inductive ImageType where
  | D1 (width : Nat) (layers : Nat)
  | D2 (width : Nat) (height : Nat) (layers : Nat) (samples : Nat)
  | D3 (width : Nat) (height : Nat) (depth : Nat)
  deriving DecidableEq, Repr

/-- The GL texture targets `create_image` can name, plus the cube-map targets
that exist in the GL API (and in `create_image_view`) but are never produced
by `create_image`. -/
inductive GLTarget where
  | TEXTURE_1D
  | TEXTURE_1D_ARRAY
  | TEXTURE_2D
  | TEXTURE_2D_ARRAY
  | TEXTURE_2D_MULTISAMPLE
  | TEXTURE_2D_MULTISAMPLE_ARRAY
  | TEXTURE_3D
  | TEXTURE_CUBE_MAP
  | TEXTURE_CUBE_MAP_ARRAY
  deriving DecidableEq, Repr

/-- `ImageViewType` (src/image.rs lines 170–178). -/
inductive ImageViewType where
  | D1
  | D2
  | D3
  | Cube
  | D1Array
  | D2Array
  | CubeArray
  deriving DecidableEq, Repr

/-- The target-resolution match at the head of `Device::create_image`
(src/image.rs lines 207–219); arms are tried in source order. -/
def resolveTarget : ImageType → GLTarget
  | .D1 _ 1 => .TEXTURE_1D
  | .D1 _ _ => .TEXTURE_1D_ARRAY
  | .D2 _ _ 1 1 => .TEXTURE_2D
  | .D2 _ _ _ 1 => .TEXTURE_2D_ARRAY
  | .D2 _ _ 1 _ => .TEXTURE_2D_MULTISAMPLE
  | .D2 _ _ _ _ => .TEXTURE_2D_MULTISAMPLE_ARRAY
  | .D3 _ _ _ => .TEXTURE_3D

/-- `ImageType::view_ty` (src/image.rs lines 139–147). -/
def view_ty : ImageType → ImageViewType
  | .D1 _ 1 => .D1
  | .D1 _ _ => .D1Array
  | .D2 _ _ 1 _ => .D2
  | .D2 _ _ _ _ => .D2Array
  | .D3 _ _ _ => .D3

/-- The storage-allocation calls `create_image` can issue. Arguments record
the dimensions passed to the GL entry point (levels and format are forwarded
unchanged and are omitted from the model). -/
inductive StorageCall where
  | textureStorage1D (width : Nat)
  | textureStorage2D (width : Nat) (height : Nat)
  | textureStorage3D (width : Nat) (height : Nat) (depth : Nat)
  deriving DecidableEq, Repr

/-- The storage-dispatch match of `Device::create_image`
(src/image.rs lines 225–264): `none` models the `unimplemented!()` arm
(a panic; no storage call is made). Arms are tried in source order; the
second and third arms are the or-patterns of the source. -/
def imageStorage : ImageType → Option StorageCall
  | .D1 w 1 => some (.textureStorage1D w)
  | .D1 w l => some (.textureStorage2D w l)
  | .D2 w h 1 1 => some (.textureStorage2D w h)
  | .D2 w h l 1 => some (.textureStorage3D w h l)
  | .D3 w h d => some (.textureStorage3D w h d)
  | .D2 _ _ _ _ => none

/-! ## Format system (src/format.rs) -/

/-- `Format` (src/format.rs lines 44–126): the sized internal texture
formats. -/
inductive Format where
  | R8_UNORM | R8G8_UNORM | R8G8B8_UNORM | R8G8B8A8_UNORM
  | R16_UNORM | R16G16_UNORM | R16G16B16_UNORM | R16G16B16A16_UNORM
  | R8_SNORM | R8G8_SNORM | R8G8B8_SNORM | R8G8B8A8_SNORM
  | R16_SNORM | R16G16_SNORM | R16G16B16_SNORM | R16G16B16A16_SNORM
  | R16_SFLOAT | R16G16_SFLOAT | R16G16B16_SFLOAT | R16G16B16A16_SFLOAT
  | R32_SFLOAT | R32G32_SFLOAT | R32G32B32_SFLOAT | R32G32B32A32_SFLOAT
  | R8_INT | R8G8_INT | R8G8B8_INT | R8G8B8A8_INT
  | R16_INT | R16G16_INT | R16G16B16_INT | R16G16B16A16_INT
  | R32_INT | R32G32_INT | R32G32B32_INT | R32G32B32A32_INT
  | R8_UINT | R8G8_UINT | R8G8B8_UINT | R8G8B8A8_UINT
  | R16_UINT | R16G16_UINT | R16G16B16_UINT | R16G16B16A16_UINT
  | R32_UINT | R32G32_UINT | R32G32B32_UINT | R32G32B32A32_UINT
  | R8G8B8_SRGB | R8G8B8A8_SRGB
  | D16_UNORM | D24_UNORM | D32_UNORM | D32_SFLOAT
  | S8_UINT
  | D24_UNORM_S8_UINT | D32_SFLOAT_S8_UINT
  deriving DecidableEq, Repr

/-- `BaseFormat` (src/format.rs lines 171–179). -/
inductive BaseFormat where
  | R | RG | RGB | RGBA | Depth | DepthStencil | Stencil
  deriving DecidableEq, Repr

/-- `Format::base_format` (src/format.rs lines 135–165). -/
def Format.base_format : Format → BaseFormat
  | .R8_UNORM | .R16_UNORM | .R8_SNORM | .R16_SNORM | .R8_INT | .R16_INT | .R32_INT
  | .R8_UINT | .R16_UINT | .R32_UINT | .R16_SFLOAT | .R32_SFLOAT => .R
  | .R8G8_UNORM | .R16G16_UNORM | .R8G8_SNORM | .R16G16_SNORM | .R8G8_INT | .R16G16_INT
  | .R32G32_INT | .R8G8_UINT | .R16G16_UINT | .R32G32_UINT | .R16G16_SFLOAT
  | .R32G32_SFLOAT => .RG
  | .R8G8B8_UNORM | .R16G16B16_UNORM | .R8G8B8_SNORM | .R16G16B16_SNORM | .R8G8B8_INT
  | .R16G16B16_INT | .R32G32B32_INT | .R8G8B8_UINT | .R16G16B16_UINT | .R32G32B32_UINT
  | .R16G16B16_SFLOAT | .R32G32B32_SFLOAT => .RGB
  | .R8G8B8A8_UNORM | .R16G16B16A16_UNORM | .R8G8B8A8_SNORM | .R16G16B16A16_SNORM
  | .R8G8B8A8_INT | .R16G16B16A16_INT | .R32G32B32A32_INT | .R8G8B8A8_UINT
  | .R16G16B16A16_UINT | .R32G32B32A32_UINT | .R16G16B16A16_SFLOAT
  | .R32G32B32A32_SFLOAT => .RGBA
  | .R8G8B8_SRGB => .RGB
  | .R8G8B8A8_SRGB => .RGBA
  | .D32_SFLOAT | .D16_UNORM | .D24_UNORM | .D32_UNORM => .Depth
  | .S8_UINT => .Stencil
  | .D32_SFLOAT_S8_UINT | .D24_UNORM_S8_UINT => .DepthStencil

/-- `BaseFormat::num_components` (src/format.rs lines 183–194). -/
def BaseFormat.num_components : BaseFormat → Nat
  | .R => 1
  | .RG => 2
  | .RGB => 3
  | .RGBA => 4
  | .Depth => 1
  | .DepthStencil => 2
  | .Stencil => 1

/-- Modelled from the spec: the channel count implied by each format
enumerator's own name (count of color channels R/G/B/A in the name, one for a
depth-only or stencil-only name, two for a combined depth-stencil name). This
is the spec-side reading of C6, to be compared with
`Format.base_format ∘ BaseFormat.num_components`. -/
def nameImpliedChannels : Format → Nat
  | .R8_UNORM | .R16_UNORM | .R8_SNORM | .R16_SNORM | .R16_SFLOAT | .R32_SFLOAT
  | .R8_INT | .R16_INT | .R32_INT | .R8_UINT | .R16_UINT | .R32_UINT => 1
  | .R8G8_UNORM | .R16G16_UNORM | .R8G8_SNORM | .R16G16_SNORM | .R16G16_SFLOAT
  | .R32G32_SFLOAT | .R8G8_INT | .R16G16_INT | .R32G32_INT | .R8G8_UINT
  | .R16G16_UINT | .R32G32_UINT => 2
  | .R8G8B8_UNORM | .R16G16B16_UNORM | .R8G8B8_SNORM | .R16G16B16_SNORM
  | .R16G16B16_SFLOAT | .R32G32B32_SFLOAT | .R8G8B8_INT | .R16G16B16_INT
  | .R32G32B32_INT | .R8G8B8_UINT | .R16G16B16_UINT | .R32G32B32_UINT
  | .R8G8B8_SRGB => 3
  | .R8G8B8A8_UNORM | .R16G16B16A16_UNORM | .R8G8B8A8_SNORM | .R16G16B16A16_SNORM
  | .R16G16B16A16_SFLOAT | .R32G32B32A32_SFLOAT | .R8G8B8A8_INT | .R16G16B16A16_INT
  | .R32G32B32A32_INT | .R8G8B8A8_UINT | .R16G16B16A16_UINT | .R32G32B32A32_UINT
  | .R8G8B8A8_SRGB => 4
  | .D16_UNORM | .D24_UNORM | .D32_UNORM | .D32_SFLOAT => 1
  | .S8_UINT => 1
  | .D24_UNORM_S8_UINT | .D32_SFLOAT_S8_UINT => 2

/-! ## Vertex attribute formats (src/vertex.rs) -/

/-- `VertexFormat` (src/vertex.rs lines 58–155). -/
inductive VertexFormat where
  | X8Int | X8Uint | X8Unorm | X8Inorm | X8Uscaled | X8Iscaled
  | Xy8Int | Xy8Uint | Xy8Unorm | Xy8Inorm | Xy8Uscaled | Xy8Iscaled
  | Xyz8Int | Xyz8Uint | Xyz8Unorm | Xyz8Inorm | Xyz8Uscaled | Xyz8Iscaled
  | Xyzw8Int | Xyzw8Uint | Xyzw8Unorm | Xyzw8Inorm | Xyzw8Uscaled | Xyzw8Iscaled
  | X16Int | X16Uint | X16Float | X16Unorm | X16Inorm | X16Uscaled | X16Iscaled
  | Xy16Int | Xy16Uint | Xy16Float | Xy16Unorm | Xy16Inorm | Xy16Uscaled | Xy16Iscaled
  | Xyz16Int | Xyz16Uint | Xyz16Float | Xyz16Unorm | Xyz16Inorm | Xyz16Uscaled | Xyz16Iscaled
  | Xyzw16Int | Xyzw16Uint | Xyzw16Float | Xyzw16Unorm | Xyzw16Inorm | Xyzw16Uscaled
  | Xyzw16Iscaled
  | X32Int | X32Uint | X32Float | X32Unorm | X32Inorm | X32Uscaled | X32Iscaled
  | Xy32Int | Xy32Uint | Xy32Float | Xy32Unorm | Xy32Inorm | Xy32Uscaled | Xy32Iscaled
  | Xyz32Int | Xyz32Uint | Xyz32Float | Xyz32Unorm | Xyz32Inorm | Xyz32Uscaled | Xyz32Iscaled
  | Xyzw32Int | Xyzw32Uint | Xyzw32Float | Xyzw32Unorm | Xyzw32Inorm | Xyzw32Uscaled
  | Xyzw32Iscaled
  | X64Float | Xy64Float | Xyz64Float | Xyzw64Float
  deriving DecidableEq, Repr

/-- The local `enum VertexBase` of `create_vertex_array`
(src/vertex.rs lines 170–174): which of the three attribute-configuration
calls is used. -/
inductive VertexBase where
  | Int | Float | Double
  deriving DecidableEq, Repr

/-- The GL scalar type enums used in the vertex format table. -/
inductive GLScalarType where
  | BYTE | UNSIGNED_BYTE | SHORT | UNSIGNED_SHORT | INT | UNSIGNED_INT
  | HALF_FLOAT | FLOAT | DOUBLE
  deriving DecidableEq, Repr

/-- The `(base, num, ty, norm)` tuple computed per attribute in
`create_vertex_array`. -/
structure ResolvedAttr where
  base : VertexBase
  num : Nat
  ty : GLScalarType
  norm : Bool
  deriving DecidableEq, Repr

/-- The vertex-format resolution match of `Device::create_vertex_array`
(src/vertex.rs lines 177–274). -/
def resolveVertexFormat : VertexFormat → ResolvedAttr
  | .X8Int => ⟨.Int, 1, .BYTE, false⟩
  | .X8Uint => ⟨.Int, 1, .UNSIGNED_BYTE, false⟩
  | .X8Unorm => ⟨.Float, 1, .UNSIGNED_BYTE, true⟩
  | .X8Inorm => ⟨.Float, 1, .BYTE, true⟩
  | .X8Uscaled => ⟨.Float, 1, .UNSIGNED_BYTE, false⟩
  | .X8Iscaled => ⟨.Float, 1, .BYTE, false⟩
  | .Xy8Int => ⟨.Int, 2, .BYTE, false⟩
  | .Xy8Uint => ⟨.Int, 2, .UNSIGNED_BYTE, false⟩
  | .Xy8Unorm => ⟨.Float, 2, .UNSIGNED_BYTE, true⟩
  | .Xy8Inorm => ⟨.Float, 2, .BYTE, true⟩
  | .Xy8Uscaled => ⟨.Float, 2, .UNSIGNED_BYTE, false⟩
  | .Xy8Iscaled => ⟨.Float, 2, .BYTE, false⟩
  | .Xyz8Int => ⟨.Int, 3, .BYTE, false⟩
  | .Xyz8Uint => ⟨.Int, 3, .UNSIGNED_BYTE, false⟩
  | .Xyz8Unorm => ⟨.Float, 3, .UNSIGNED_BYTE, true⟩
  | .Xyz8Inorm => ⟨.Float, 3, .BYTE, true⟩
  | .Xyz8Uscaled => ⟨.Float, 3, .UNSIGNED_BYTE, false⟩
  | .Xyz8Iscaled => ⟨.Float, 3, .BYTE, false⟩
  | .Xyzw8Int => ⟨.Int, 4, .BYTE, false⟩
  | .Xyzw8Uint => ⟨.Int, 4, .UNSIGNED_BYTE, false⟩
  | .Xyzw8Unorm => ⟨.Float, 4, .UNSIGNED_BYTE, true⟩
  | .Xyzw8Inorm => ⟨.Float, 4, .BYTE, true⟩
  | .Xyzw8Uscaled => ⟨.Float, 4, .UNSIGNED_BYTE, false⟩
  | .Xyzw8Iscaled => ⟨.Float, 4, .BYTE, false⟩
  | .X16Int => ⟨.Int, 1, .SHORT, false⟩
  | .X16Uint => ⟨.Int, 1, .UNSIGNED_SHORT, false⟩
  | .X16Float => ⟨.Float, 1, .HALF_FLOAT, false⟩
  | .X16Unorm => ⟨.Float, 1, .UNSIGNED_SHORT, true⟩
  | .X16Inorm => ⟨.Float, 1, .SHORT, true⟩
  | .X16Uscaled => ⟨.Float, 1, .UNSIGNED_SHORT, false⟩
  | .X16Iscaled => ⟨.Float, 1, .SHORT, false⟩
  | .Xy16Int => ⟨.Int, 2, .SHORT, false⟩
  | .Xy16Uint => ⟨.Int, 2, .UNSIGNED_SHORT, false⟩
  | .Xy16Float => ⟨.Float, 2, .HALF_FLOAT, false⟩
  | .Xy16Unorm => ⟨.Float, 2, .UNSIGNED_SHORT, true⟩
  | .Xy16Inorm => ⟨.Float, 2, .SHORT, true⟩
  | .Xy16Uscaled => ⟨.Float, 2, .UNSIGNED_SHORT, false⟩
  | .Xy16Iscaled => ⟨.Float, 2, .SHORT, false⟩
  | .Xyz16Int => ⟨.Int, 3, .SHORT, false⟩
  | .Xyz16Uint => ⟨.Int, 3, .UNSIGNED_SHORT, false⟩
  | .Xyz16Float => ⟨.Float, 3, .HALF_FLOAT, false⟩
  | .Xyz16Unorm => ⟨.Float, 3, .UNSIGNED_SHORT, true⟩
  | .Xyz16Inorm => ⟨.Float, 3, .SHORT, true⟩
  | .Xyz16Uscaled => ⟨.Float, 3, .UNSIGNED_SHORT, false⟩
  | .Xyz16Iscaled => ⟨.Float, 3, .SHORT, false⟩
  | .Xyzw16Int => ⟨.Int, 4, .SHORT, false⟩
  | .Xyzw16Uint => ⟨.Int, 4, .UNSIGNED_SHORT, false⟩
  | .Xyzw16Float => ⟨.Float, 4, .HALF_FLOAT, false⟩
  | .Xyzw16Unorm => ⟨.Float, 4, .UNSIGNED_SHORT, true⟩
  | .Xyzw16Inorm => ⟨.Float, 4, .SHORT, true⟩
  | .Xyzw16Uscaled => ⟨.Float, 4, .UNSIGNED_SHORT, false⟩
  | .Xyzw16Iscaled => ⟨.Float, 4, .SHORT, false⟩
  | .X32Int => ⟨.Int, 1, .INT, false⟩
  | .X32Uint => ⟨.Int, 1, .UNSIGNED_INT, false⟩
  | .X32Float => ⟨.Float, 1, .FLOAT, false⟩
  | .X32Unorm => ⟨.Float, 1, .UNSIGNED_INT, true⟩
  | .X32Inorm => ⟨.Float, 1, .INT, true⟩
  | .X32Uscaled => ⟨.Float, 1, .UNSIGNED_INT, false⟩
  | .X32Iscaled => ⟨.Float, 1, .INT, false⟩
  | .Xy32Int => ⟨.Int, 2, .INT, false⟩
  | .Xy32Uint => ⟨.Int, 2, .UNSIGNED_INT, false⟩
  | .Xy32Float => ⟨.Float, 2, .FLOAT, false⟩
  | .Xy32Unorm => ⟨.Float, 2, .UNSIGNED_INT, true⟩
  | .Xy32Inorm => ⟨.Float, 2, .INT, true⟩
  | .Xy32Uscaled => ⟨.Float, 2, .UNSIGNED_INT, false⟩
  | .Xy32Iscaled => ⟨.Float, 2, .INT, false⟩
  | .Xyz32Int => ⟨.Int, 3, .INT, false⟩
  | .Xyz32Uint => ⟨.Int, 3, .UNSIGNED_INT, false⟩
  | .Xyz32Float => ⟨.Float, 3, .FLOAT, false⟩
  | .Xyz32Unorm => ⟨.Float, 3, .UNSIGNED_INT, true⟩
  | .Xyz32Inorm => ⟨.Float, 3, .INT, true⟩
  | .Xyz32Uscaled => ⟨.Float, 3, .UNSIGNED_INT, false⟩
  | .Xyz32Iscaled => ⟨.Float, 3, .INT, false⟩
  | .Xyzw32Int => ⟨.Int, 4, .INT, false⟩
  | .Xyzw32Uint => ⟨.Int, 4, .UNSIGNED_INT, false⟩
  | .Xyzw32Float => ⟨.Float, 4, .FLOAT, false⟩
  | .Xyzw32Unorm => ⟨.Float, 4, .UNSIGNED_INT, true⟩
  | .Xyzw32Inorm => ⟨.Float, 4, .INT, true⟩
  | .Xyzw32Uscaled => ⟨.Float, 4, .UNSIGNED_INT, false⟩
  | .Xyzw32Iscaled => ⟨.Float, 4, .INT, false⟩
  | .X64Float => ⟨.Double, 1, .DOUBLE, false⟩
  | .Xy64Float => ⟨.Double, 2, .DOUBLE, false⟩
  | .Xyz64Float => ⟨.Double, 3, .DOUBLE, false⟩
  | .Xyzw64Float => ⟨.Double, 4, .DOUBLE, false⟩

/-- The interpretation suffix of a vertex-format enumerator's name. -/
inductive VertexKind where
  | Int | Uint | Unorm | Inorm | Uscaled | Iscaled | Float
  deriving DecidableEq, Repr

/-- Spec-side classification: the interpretation read off each enumerator's
name suffix (Int/Uint/Unorm/Inorm/Uscaled/Iscaled/Float). -/
def vertexNameKind : VertexFormat → VertexKind
  | .X8Int | .Xy8Int | .Xyz8Int | .Xyzw8Int
  | .X16Int | .Xy16Int | .Xyz16Int | .Xyzw16Int
  | .X32Int | .Xy32Int | .Xyz32Int | .Xyzw32Int => .Int
  | .X8Uint | .Xy8Uint | .Xyz8Uint | .Xyzw8Uint
  | .X16Uint | .Xy16Uint | .Xyz16Uint | .Xyzw16Uint
  | .X32Uint | .Xy32Uint | .Xyz32Uint | .Xyzw32Uint => .Uint
  | .X8Unorm | .Xy8Unorm | .Xyz8Unorm | .Xyzw8Unorm
  | .X16Unorm | .Xy16Unorm | .Xyz16Unorm | .Xyzw16Unorm
  | .X32Unorm | .Xy32Unorm | .Xyz32Unorm | .Xyzw32Unorm => .Unorm
  | .X8Inorm | .Xy8Inorm | .Xyz8Inorm | .Xyzw8Inorm
  | .X16Inorm | .Xy16Inorm | .Xyz16Inorm | .Xyzw16Inorm
  | .X32Inorm | .Xy32Inorm | .Xyz32Inorm | .Xyzw32Inorm => .Inorm
  | .X8Uscaled | .Xy8Uscaled | .Xyz8Uscaled | .Xyzw8Uscaled
  | .X16Uscaled | .Xy16Uscaled | .Xyz16Uscaled | .Xyzw16Uscaled
  | .X32Uscaled | .Xy32Uscaled | .Xyz32Uscaled | .Xyzw32Uscaled => .Uscaled
  | .X8Iscaled | .Xy8Iscaled | .Xyz8Iscaled | .Xyzw8Iscaled
  | .X16Iscaled | .Xy16Iscaled | .Xyz16Iscaled | .Xyzw16Iscaled
  | .X32Iscaled | .Xy32Iscaled | .Xyz32Iscaled | .Xyzw32Iscaled => .Iscaled
  | .X16Float | .Xy16Float | .Xyz16Float | .Xyzw16Float
  | .X32Float | .Xy32Float | .Xyz32Float | .Xyzw32Float
  | .X64Float | .Xy64Float | .Xyz64Float | .Xyzw64Float => .Float

/-- Spec-side classification: the scalar bit width read off each enumerator's
name (8/16/32/64). -/
def vertexNameBits : VertexFormat → Nat
  | .X8Int | .X8Uint | .X8Unorm | .X8Inorm | .X8Uscaled | .X8Iscaled
  | .Xy8Int | .Xy8Uint | .Xy8Unorm | .Xy8Inorm | .Xy8Uscaled | .Xy8Iscaled
  | .Xyz8Int | .Xyz8Uint | .Xyz8Unorm | .Xyz8Inorm | .Xyz8Uscaled | .Xyz8Iscaled
  | .Xyzw8Int | .Xyzw8Uint | .Xyzw8Unorm | .Xyzw8Inorm | .Xyzw8Uscaled
  | .Xyzw8Iscaled => 8
  | .X16Int | .X16Uint | .X16Float | .X16Unorm | .X16Inorm | .X16Uscaled | .X16Iscaled
  | .Xy16Int | .Xy16Uint | .Xy16Float | .Xy16Unorm | .Xy16Inorm | .Xy16Uscaled | .Xy16Iscaled
  | .Xyz16Int | .Xyz16Uint | .Xyz16Float | .Xyz16Unorm | .Xyz16Inorm | .Xyz16Uscaled
  | .Xyz16Iscaled
  | .Xyzw16Int | .Xyzw16Uint | .Xyzw16Float | .Xyzw16Unorm | .Xyzw16Inorm | .Xyzw16Uscaled
  | .Xyzw16Iscaled => 16
  | .X32Int | .X32Uint | .X32Float | .X32Unorm | .X32Inorm | .X32Uscaled | .X32Iscaled
  | .Xy32Int | .Xy32Uint | .Xy32Float | .Xy32Unorm | .Xy32Inorm | .Xy32Uscaled | .Xy32Iscaled
  | .Xyz32Int | .Xyz32Uint | .Xyz32Float | .Xyz32Unorm | .Xyz32Inorm | .Xyz32Uscaled
  | .Xyz32Iscaled
  | .Xyzw32Int | .Xyzw32Uint | .Xyzw32Float | .Xyzw32Unorm | .Xyzw32Inorm | .Xyzw32Uscaled
  | .Xyzw32Iscaled => 32
  | .X64Float | .Xy64Float | .Xyz64Float | .Xyzw64Float => 64

/-! ## Color blend state replay (src/pipeline.rs) -/

/-- `BlendFactor` (src/pipeline.rs lines 241–261). -/
inductive BlendFactor where
  | Zero | One | SrcColor | OneMinusSrcColor | DstColor | OneMinusDstColor
  | SrcAlpha | OneMinusSrcAlpha | DstAlpha | OneMinusDstAlpha
  | ConstantColor | OneMinusConstantColor | ConstantAlpha | OneMinusConstantAlpha
  | SrcAlphaSaturate | Src1Color | OneMinusSrc1Color | Src1Alpha | OneMinusSrc1Alpha
  deriving DecidableEq, Repr

/-- `BlendOp` (src/pipeline.rs lines 265–271). -/
inductive BlendOp where
  | Add | Substract | ReverseSubstract | Min | Max
  deriving DecidableEq, Repr

/-- `BlendChannel` (src/pipeline.rs lines 274–278). -/
structure BlendChannel where
  src_factor : BlendFactor
  dst_factor : BlendFactor
  blend_op : BlendOp
  deriving DecidableEq, Repr

/-- `ColorBlendAttachment` (src/pipeline.rs lines 282–286). -/
structure ColorBlendAttachment where
  blend_enable : Bool
  color : BlendChannel
  alpha : BlendChannel
  deriving DecidableEq, Repr

/-- `ColorBlend` (src/pipeline.rs lines 235–237). -/
structure ColorBlend where
  attachments : List ColorBlendAttachment
  deriving DecidableEq, Repr

/-- The per-slot GL calls `bind_color_blend_state` can issue
(`Enablei`/`Disablei` are always on the `BLEND` capability). -/
inductive BlendCall where
  | enablei (slot : Nat)
  | disablei (slot : Nat)
  | blendEquationSeparatei (slot : Nat) (modeRGB modeAlpha : BlendOp)
  | blendFuncSeparatei (slot : Nat) (srcRGB dstRGB srcAlpha dstAlpha : BlendFactor)
  deriving DecidableEq, Repr

/-- The slot (draw-buffer index) a blend call addresses. -/
def blendCallSlot : BlendCall → Nat
  | .enablei slot => slot
  | .disablei slot => slot
  | .blendEquationSeparatei slot _ _ => slot
  | .blendFuncSeparatei slot _ _ _ _ => slot

/-- The body of the per-attachment loop of `bind_color_blend_state`
(src/pipeline.rs lines 617–638). -/
def emitAttachment (slot : Nat) (a : ColorBlendAttachment) : List BlendCall :=
  if a.blend_enable then
    [.enablei slot,
     .blendEquationSeparatei slot a.color.blend_op a.alpha.blend_op,
     .blendFuncSeparatei slot a.color.src_factor a.color.dst_factor
       a.alpha.src_factor a.alpha.dst_factor]
  else
    [.disablei slot]

/-- The enumerated loop of `bind_color_blend_state`: attachment `k` of the
list is processed with slot index `start + k`. -/
def bindAttachments (start : Nat) : List ColorBlendAttachment → List BlendCall
  | [] => []
  | a :: rest => emitAttachment start a ++ bindAttachments (start + 1) rest

/-- `Device::bind_color_blend_state` (src/pipeline.rs lines 615–640) as the
list of GL calls it issues, in order. -/
def bind_color_blend_state (s : ColorBlend) : List BlendCall :=
  bindAttachments 0 s.attachments

/-! ## Depth/stencil state replay (src/pipeline.rs) -/

/-- `Compare` (src/lib.rs lines 865–874). -/
inductive Compare where
  | Less | LessEqual | Greater | GreaterEqual | Equal | NotEqual | Always | Never
  deriving DecidableEq, Repr

/-- `StencilOp` (src/pipeline.rs lines 290–299). -/
inductive StencilOp where
  | Keep | Zero | Replace | IncrementClamp | DecrementClamp | Invert
  | IncrementWrap | DecrementWrap
  deriving DecidableEq, Repr

/-- `StencilFace` (src/pipeline.rs lines 303–310). -/
structure StencilFace where
  fail : StencilOp
  pass : StencilOp
  depth_fail : StencilOp
  compare_op : Compare
  compare_mask : Nat
  reference : Nat
  deriving DecidableEq, Repr

/-- `StencilFace::KEEP` (src/pipeline.rs lines 313–320); the `!0` mask is the
all-ones `u32`. -/
def StencilFace.KEEP : StencilFace :=
  ⟨.Keep, .Keep, .Keep, .Always, 0xffffffff, 0⟩

/-- `DepthStencil` (src/pipeline.rs lines 325–332). -/
structure DepthStencil where
  depth_test : Bool
  depth_write : Bool
  depth_compare_op : Compare
  stencil_test : Bool
  stencil_front : StencilFace
  stencil_back : StencilFace
  deriving DecidableEq, Repr

/-- Capabilities toggled by `bind_depth_stencil_state`. -/
inductive DSCap where
  | DEPTH_TEST | STENCIL_TEST
  deriving DecidableEq, Repr

/-- Stencil face selector. -/
inductive Face where
  | FRONT | BACK
  deriving DecidableEq, Repr

/-- The GL calls `bind_depth_stencil_state` can issue. -/
inductive DSCall where
  | enable (cap : DSCap)
  | disable (cap : DSCap)
  | depthMask (flag : Bool)
  | depthFunc (func : Compare)
  | stencilFuncSeparate (face : Face) (func : Compare) (ref : Nat) (mask : Nat)
  | stencilOpSeparate (face : Face) (sfail dpfail dppass : StencilOp)
  deriving DecidableEq, Repr

/-- `Device::bind_depth_stencil_state` (src/pipeline.rs lines 658–708) as the
list of GL calls it issues, in order. -/
def bind_depth_stencil_state (s : DepthStencil) : List DSCall :=
  (if s.depth_test then
    [.enable .DEPTH_TEST, .depthMask s.depth_write, .depthFunc s.depth_compare_op]
  else
    [.disable .DEPTH_TEST]) ++
  (if s.stencil_test then
    [.enable .STENCIL_TEST,
     .stencilFuncSeparate .FRONT s.stencil_front.compare_op
       s.stencil_front.reference s.stencil_front.compare_mask,
     .stencilOpSeparate .FRONT s.stencil_front.fail
       s.stencil_front.depth_fail s.stencil_front.pass,
     .stencilFuncSeparate .BACK s.stencil_back.compare_op
       s.stencil_back.reference s.stencil_back.compare_mask,
     .stencilOpSeparate .BACK s.stencil_back.fail
       s.stencil_back.depth_fail s.stencil_back.pass]
  else
    [.disable .STENCIL_TEST])

/-! ## Shader and pipeline creation (src/pipeline.rs, src/error.rs) -/

/-- `Error` (src/error.rs lines 21–23): the only typed error of the crate. -/
inductive GrrError where
  | OutOfMemory
  deriving DecidableEq, Repr

/-- `Shader` handle (src/pipeline.rs line 32). -/
structure Shader where
  raw : Nat
  deriving DecidableEq, Repr

/-- `Pipeline` handle (src/pipeline.rs line 46). -/
structure Pipeline where
  raw : Nat
  deriving DecidableEq, Repr

/-- Messages printed to stdout by shader/pipeline creation. -/
inductive PrintEvent where
  | compileFailed
  | shaderInfoLog (log : String)
  | linkFailed
  | pipelineInfoLog (log : String)
  deriving DecidableEq, Repr

/-- The GL-context responses `create_shader` consumes: whether `GetError`
reports out-of-memory right after `CreateShader`, the raw id `CreateShader`
returns, the `COMPILE_STATUS` value, and the shader info log (the empty
string models info-log length 0). -/
structure ShaderEnv where
  create_out_of_memory : Bool
  handle : Nat
  compile_status : Bool
  info_log : String
  deriving DecidableEq, Repr

/-- `Device::create_shader` (src/pipeline.rs lines 384–447): the returned
`Result` and the stdout messages, in order. On a failed compile it prints the
failure and the log but still returns `Ok` with the handle; the only `Err`
arises from `get_error()?` after `CreateShader`. -/
def create_shader (env : ShaderEnv) : Except GrrError Shader × List PrintEvent :=
  if env.create_out_of_memory then
    (.error .OutOfMemory, [])
  else
    (.ok ⟨env.handle⟩,
      (if env.compile_status then [] else [.compileFailed]) ++
      (if env.info_log = "" then [] else [.shaderInfoLog env.info_log]))

/-- The GL-context responses `create_graphics_pipeline` consumes: whether
`GetError` reports out-of-memory right after `CreateProgram`, the raw program
id, the `LINK_STATUS` value, and the program info log. -/
structure PipelineEnv where
  create_out_of_memory : Bool
  handle : Nat
  link_status : Bool
  info_log : String
  deriving DecidableEq, Repr

/-- `Device::create_graphics_pipeline` (src/pipeline.rs lines 480–551): the
returned `Result` and the stdout messages (the link-failure line, then
`check_pipeline_log`), in order. A failed link still returns `Ok` with the
program handle. -/
def create_graphics_pipeline (env : PipelineEnv) :
    Except GrrError Pipeline × List PrintEvent :=
  if env.create_out_of_memory then
    (.error .OutOfMemory, [])
  else
    (.ok ⟨env.handle⟩,
      (if env.link_status then [] else [.linkFailed]) ++
      (if env.info_log = "" then [] else [.pipelineInfoLog env.info_log]))

/-! ## Deletion entry points (src/buffer.rs, src/image.rs, src/vertex.rs) -/

/-- `Buffer` (src/buffer.rs line 15): raw id plus stored creation flags. -/
structure Buffer where
  raw : Nat
  flags : Nat
  deriving DecidableEq, Repr

/-- `Image` (src/image.rs lines 28–31). -/
structure Image where
  raw : Nat
  target : GLTarget
  deriving DecidableEq, Repr

/-- `ImageView` (src/image.rs line 157). -/
structure ImageView where
  raw : Nat
  deriving DecidableEq, Repr

/-- `VertexArray` (src/vertex.rs line 16). -/
structure VertexArray where
  raw : Nat
  deriving DecidableEq, Repr

/-- The batched GL deletion entry points. -/
inductive DeleteCall where
  | deleteBuffers (ids : List Nat)
  | deleteTextures (ids : List Nat)
  | deleteVertexArrays (ids : List Nat)
  deriving DecidableEq, Repr

/-- `Device::delete_buffers` (src/buffer.rs lines 167–171): one
`DeleteBuffers` call on the collected raw ids. -/
def delete_buffers (buffers : List Buffer) : List DeleteCall :=
  [.deleteBuffers (buffers.map Buffer.raw)]

/-- `Device::delete_buffer` (src/buffer.rs lines 162–164): delegates to
`delete_buffers` on the singleton slice. -/
def delete_buffer (buffer : Buffer) : List DeleteCall :=
  delete_buffers [buffer]

/-- `Device::delete_images` (src/image.rs lines 276–281): one
`DeleteTextures` call on the collected raw ids. -/
def delete_images (images : List Image) : List DeleteCall :=
  [.deleteTextures (images.map Image.raw)]

/-- `Device::delete_image` (src/image.rs lines 271–273). -/
def delete_image (image : Image) : List DeleteCall :=
  delete_images [image]

/-- `Device::delete_image_views` (src/image.rs lines 492–497): one
`DeleteTextures` call on the raw ids (views are textures internally). -/
def delete_image_views (views : List ImageView) : List DeleteCall :=
  [.deleteTextures (views.map ImageView.raw)]

/-- `Device::delete_image_view` (src/image.rs lines 487–489). -/
def delete_image_view (view : ImageView) : List DeleteCall :=
  delete_image_views [view]

/-- `Device::delete_vertex_arrays` (src/vertex.rs lines 311–316): one
`DeleteVertexArrays` call on the raw ids. -/
def delete_vertex_arrays (vaos : List VertexArray) : List DeleteCall :=
  [.deleteVertexArrays (vaos.map VertexArray.raw)]

/-- `Device::delete_vertex_array` (src/vertex.rs lines 306–308). -/
def delete_vertex_array (vao : VertexArray) : List DeleteCall :=
  delete_vertex_arrays [vao]

end Grr

open Grr

/-- Claim C3: for every combination of `MemoryFlags` (a 5-bit mask), the
creation flags computed by `create_buffer_impl` are the additive OR of the
client-storage bit exactly when `DEVICE_LOCAL` is absent, the
coherent-mapping and persistent-mapping bits when `COHERENT` is set, the read
and persistent bits when `CPU_MAP_READ` is set, the write and persistent bits
when `CPU_MAP_WRITE` is set, and the dynamic-storage bit when `DYNAMIC` is
set — with no other bits set. -/
theorem create_buffer_flags_additive_or :
    ∀ m < 32,
      create_buffer_flags m =
        (if !flagsContains m MemoryFlags.DEVICE_LOCAL then CLIENT_STORAGE_BIT else 0) |||
        (if flagsContains m MemoryFlags.COHERENT
          then MAP_COHERENT_BIT ||| MAP_PERSISTENT_BIT else 0) |||
        (if flagsContains m MemoryFlags.CPU_MAP_READ
          then MAP_READ_BIT ||| MAP_PERSISTENT_BIT else 0) |||
        (if flagsContains m MemoryFlags.CPU_MAP_WRITE
          then MAP_WRITE_BIT ||| MAP_PERSISTENT_BIT else 0) |||
        (if flagsContains m MemoryFlags.DYNAMIC then DYNAMIC_STORAGE_BIT else 0) := by
  decide

/-- Witness for C3 at the concrete input `COHERENT | CPU_MAP_WRITE | DYNAMIC`
(mask `0x1a`): the computed creation flags equal the stated OR. -/
theorem create_buffer_flags_additive_or_witness :
    create_buffer_flags 0x1a =
        (if !flagsContains 0x1a MemoryFlags.DEVICE_LOCAL then CLIENT_STORAGE_BIT else 0) |||
        (if flagsContains 0x1a MemoryFlags.COHERENT
          then MAP_COHERENT_BIT ||| MAP_PERSISTENT_BIT else 0) |||
        (if flagsContains 0x1a MemoryFlags.CPU_MAP_READ
          then MAP_READ_BIT ||| MAP_PERSISTENT_BIT else 0) |||
        (if flagsContains 0x1a MemoryFlags.CPU_MAP_WRITE
          then MAP_WRITE_BIT ||| MAP_PERSISTENT_BIT else 0) |||
        (if flagsContains 0x1a MemoryFlags.DYNAMIC then DYNAMIC_STORAGE_BIT else 0) :=
  create_buffer_flags_additive_or 0x1a (by decide)

/-- Claim C2: for every buffer created with any of the 2^5 combinations of
`MemoryFlags` and every combination of `MappingFlags` (the single
`UNSYNCHRONIZED` bit), the access flags computed by `map_buffer` equal the
unsynchronized bit of the request OR-ed with the stored creation flags
intersected with `coherent|persistent|read|write`; the read bit is set only if
the buffer was created with `CPU_MAP_READ` and the write bit only if it was
created with `CPU_MAP_WRITE`. -/
theorem map_buffer_flags_capped :
    ∀ m < 32, ∀ mp < 2,
      map_buffer_flags (create_buffer_flags m) mp =
        (if flagsContains mp MappingFlags.UNSYNCHRONIZED
          then MAP_UNSYNCHRONIZED_BIT else 0) |||
        (create_buffer_flags m &&& mapMask) ∧
      (flagsContains (map_buffer_flags (create_buffer_flags m) mp) MAP_READ_BIT =
        flagsContains m MemoryFlags.CPU_MAP_READ) ∧
      (flagsContains (map_buffer_flags (create_buffer_flags m) mp) MAP_WRITE_BIT =
        flagsContains m MemoryFlags.CPU_MAP_WRITE) := by
  decide

/-- Claim C1 counterexample: the shape `D2{512,512,layers=6,samples=1}` does
not resolve to the cube-map target — `create_image` resolves it to the plain
2D-array target, and `view_ty` likewise yields `D2Array`, not `Cube`. -/
theorem resolve_target_no_cube_counterexample :
    resolveTarget (.D2 512 512 6 1) = GLTarget.TEXTURE_2D_ARRAY ∧
    resolveTarget (.D2 512 512 6 1) ≠ GLTarget.TEXTURE_CUBE_MAP ∧
    view_ty (.D2 512 512 6 1) = ImageViewType.D2Array ∧
    view_ty (.D2 512 512 6 1) ≠ ImageViewType.Cube := by
  refine ⟨rfl, ?_, rfl, ?_⟩ <;> decide

/-- Claim C1 (amended): for every D2 shape with `samples == 1`, `create_image`
resolves `layers == 1` to the plain 2D target and every other layer count —
including 6 and multiples of 6 — to the plain 2D-array target; no cube-map or
cube-map-array target is ever produced for any shape, and the derived default
view type agrees (`D2` for one layer, `D2Array` otherwise). -/
theorem resolve_target_d2_single_sample (w h l : Nat) :
    (resolveTarget (.D2 w h l 1) =
      if l = 1 then GLTarget.TEXTURE_2D else GLTarget.TEXTURE_2D_ARRAY) ∧
    (view_ty (.D2 w h l 1) =
      if l = 1 then ImageViewType.D2 else ImageViewType.D2Array) ∧
    (∀ ty : ImageType,
      resolveTarget ty ≠ GLTarget.TEXTURE_CUBE_MAP ∧
      resolveTarget ty ≠ GLTarget.TEXTURE_CUBE_MAP_ARRAY) := by
  refine ⟨?_, ?_, ?_⟩
  · rcases l with _ | _ | l <;> rfl
  · rcases l with _ | _ | l <;> rfl
  · intro ty
    cases ty with
    | D1 w l => rcases l with _ | _ | l <;> exact ⟨by simp [resolveTarget], by simp [resolveTarget]⟩
    | D2 w h l s =>
        rcases l with _ | _ | l <;> rcases s with _ | _ | s <;>
          exact ⟨by simp [resolveTarget], by simp [resolveTarget]⟩
    | D3 w h d => exact ⟨by simp [resolveTarget], by simp [resolveTarget]⟩

/-- Claim C5 counterexample: the shape `D2{1,1,layers=1,samples=2}` is
assigned the multisampled 2D target by the resolution table, yet the storage
dispatch reaches the `unimplemented!()` arm (no storage-allocation call is
made; the call panics). -/
theorem image_storage_multisample_counterexample :
    resolveTarget (.D2 1 1 1 2) = GLTarget.TEXTURE_2D_MULTISAMPLE ∧
    imageStorage (.D2 1 1 1 2) = none := by
  exact ⟨rfl, rfl⟩

/-- Claim C5 (amended): for every D2 shape with `samples > 1`, `create_image`
resolves the multisampled target (multisampled 2D when `layers == 1`,
multisampled 2D-array otherwise) but the storage dispatch reaches the
fail-fast `unimplemented` branch for every such shape; storage allocation
completes exactly for single-sampled shapes (D2 with `samples == 1`, and all
D1/D3 shapes). -/
theorem image_storage_multisample_unimplemented (w h l s : Nat) :
    (resolveTarget (.D2 w h l (s + 2)) =
      if l = 1 then GLTarget.TEXTURE_2D_MULTISAMPLE
      else GLTarget.TEXTURE_2D_MULTISAMPLE_ARRAY) ∧
    imageStorage (.D2 w h l (s + 2)) = none ∧
    (imageStorage (.D2 w h l 1)).isSome = true ∧
    (imageStorage (.D1 w l)).isSome = true ∧
    (imageStorage (.D3 w h l)).isSome = true := by
  rcases l with _ | _ | l <;>
    exact ⟨rfl, rfl, rfl, rfl, rfl⟩

/-- Claim C6: for every `Format` enumerator, `base_format()` returns exactly
one `BaseFormat`, and `base_format().num_components()` equals the channel
count implied by the format's name; the component-count lookup is exactly
R=1, RG=2, RGB=3, RGBA=4, Depth=1, Stencil=1, DepthStencil=2. -/
theorem format_round_trip :
    (∀ f : Format, (Format.base_format f).num_components = nameImpliedChannels f) ∧
    BaseFormat.num_components .R = 1 ∧
    BaseFormat.num_components .RG = 2 ∧
    BaseFormat.num_components .RGB = 3 ∧
    BaseFormat.num_components .RGBA = 4 ∧
    BaseFormat.num_components .Depth = 1 ∧
    BaseFormat.num_components .Stencil = 1 ∧
    BaseFormat.num_components .DepthStencil = 2 := by
  refine ⟨fun f => ?_, rfl, rfl, rfl, rfl, rfl, rfl, rfl⟩
  cases f <;> rfl

/-- Claim C4: every `VertexFormat` enumerator resolves to exactly one
`(base class, component count, scalar type, normalized)` tuple with component
count in `1..=4`; the integer path is selected exactly for the Int/Uint
formats, the double path exactly for the 64-bit Float formats, the float path
exactly for the Unorm/Inorm/Uscaled/Iscaled and 16/32-bit Float formats, and
the normalized flag is true exactly for the Unorm and Inorm formats. -/
theorem vertex_format_resolution :
    ∀ f : VertexFormat,
      (1 ≤ (resolveVertexFormat f).num ∧ (resolveVertexFormat f).num ≤ 4) ∧
      ((resolveVertexFormat f).base = VertexBase.Int ↔
        (vertexNameKind f = .Int ∨ vertexNameKind f = .Uint)) ∧
      ((resolveVertexFormat f).base = VertexBase.Double ↔
        (vertexNameKind f = .Float ∧ vertexNameBits f = 64)) ∧
      ((resolveVertexFormat f).base = VertexBase.Float ↔
        (vertexNameKind f = .Unorm ∨ vertexNameKind f = .Inorm ∨
         vertexNameKind f = .Uscaled ∨ vertexNameKind f = .Iscaled ∨
         (vertexNameKind f = .Float ∧
           (vertexNameBits f = 16 ∨ vertexNameBits f = 32)))) ∧
      ((resolveVertexFormat f).norm = true ↔
        (vertexNameKind f = .Unorm ∨ vertexNameKind f = .Inorm)) := by
  intro f
  cases f <;> exact (by decide)

/-- Every call emitted for one attachment addresses that attachment's slot. -/
theorem emitAttachment_slot (n : Nat) (a : ColorBlendAttachment) :
    ∀ c ∈ emitAttachment n a, blendCallSlot c = n := by
  cases h : a.blend_enable <;> simp [emitAttachment, h, blendCallSlot]

/-- Slots addressed by the loop lie in `[start, start + length)`. -/
theorem bindAttachments_slot_bounds (l : List ColorBlendAttachment) :
    ∀ start : Nat, ∀ c ∈ bindAttachments start l,
      start ≤ blendCallSlot c ∧ blendCallSlot c < start + l.length := by
  induction l with
  | nil => intro start c hc; simp [bindAttachments] at hc
  | cons a rest ih =>
      intro start c hc
      simp only [bindAttachments] at hc
      rcases List.mem_append.mp hc with h | h
      · have hs := emitAttachment_slot start a c h
        simp only [List.length_cons]
        omega
      · have hb := ih (start + 1) c h
        simp only [List.length_cons]
        omega

/-- Filtering one attachment's calls at its own slot keeps everything. -/
theorem filter_emitAttachment_self (n : Nat) (a : ColorBlendAttachment) :
    (emitAttachment n a).filter (fun c => blendCallSlot c == n) = emitAttachment n a := by
  cases h : a.blend_enable <;> simp [emitAttachment, h, blendCallSlot]

/-- Filtering one attachment's calls at a different slot keeps nothing. -/
theorem filter_emitAttachment_ne (n i : Nat) (h : i ≠ n) (a : ColorBlendAttachment) :
    (emitAttachment n a).filter (fun c => blendCallSlot c == i) = [] := by
  cases hb : a.blend_enable <;>
    simp [emitAttachment, hb, blendCallSlot, Ne.symm h]

/-- Slots outside `[start, start + length)` receive no call from the loop. -/
theorem filter_bindAttachments_none (l : List ColorBlendAttachment)
    (start i : Nat) (hi : i < start ∨ start + l.length ≤ i) :
    (bindAttachments start l).filter (fun c => blendCallSlot c == i) = [] := by
  rw [List.filter_eq_nil_iff]
  intro c hc
  have hb := bindAttachments_slot_bounds l start c hc
  simp only [beq_iff_eq]
  omega

/-- The calls addressing slot `start + j` are exactly those the loop body
emits for attachment `j`. -/
theorem filter_bindAttachments_at (l : List ColorBlendAttachment) :
    ∀ (start j : Nat) (h : j < l.length),
      (bindAttachments start l).filter (fun c => blendCallSlot c == start + j) =
        emitAttachment (start + j) (l.get ⟨j, h⟩) := by
  induction l with
  | nil => intro start j h; exact absurd h (by simp)
  | cons a rest ih =>
      intro start j h
      match j with
      | 0 =>
          simp only [bindAttachments, List.filter_append, Nat.add_zero]
          rw [filter_emitAttachment_self,
            filter_bindAttachments_none rest (start + 1) start (Or.inl (by omega))]
          simp
      | j + 1 =>
          simp only [bindAttachments, List.filter_append]
          rw [filter_emitAttachment_ne start (start + (j + 1)) (by omega) a]
          have hj : j < rest.length := by
            simpa using Nat.lt_of_succ_lt_succ h
          have e : start + (j + 1) = (start + 1) + j := by omega
          rw [e, ih (start + 1) j hj]
          simp

/-- Claim C7: for every `ColorBlend` state and slot index `i`,
`bind_color_blend_state` addresses slot `i` with exactly the calls for
attachment `i`: the single per-slot disable when `blend_enable` is false (no
equation or factor is written for that slot), or the per-slot enable, the
separate color/alpha blend equation and the four blend factors when it is
true; a slot at or beyond the length of the attachments list is never
addressed. -/
theorem bind_color_blend_slot_isolation (s : ColorBlend) (i : Nat) :
    (bind_color_blend_state s).filter (fun c => blendCallSlot c == i) =
      if h : i < s.attachments.length then
        (if (s.attachments.get ⟨i, h⟩).blend_enable then
          [.enablei i,
           .blendEquationSeparatei i (s.attachments.get ⟨i, h⟩).color.blend_op
             (s.attachments.get ⟨i, h⟩).alpha.blend_op,
           .blendFuncSeparatei i (s.attachments.get ⟨i, h⟩).color.src_factor
             (s.attachments.get ⟨i, h⟩).color.dst_factor
             (s.attachments.get ⟨i, h⟩).alpha.src_factor
             (s.attachments.get ⟨i, h⟩).alpha.dst_factor]
        else [.disablei i])
      else [] := by
  by_cases h : i < s.attachments.length
  · rw [dif_pos h]
    have hat := filter_bindAttachments_at s.attachments 0 i h
    rw [Nat.zero_add] at hat
    rw [bind_color_blend_state, hat, emitAttachment]
  · rw [dif_neg h]
    exact filter_bindAttachments_none s.attachments 0 i (Or.inr (by omega))

/-- Claim C9 counterexample: with depth and stencil testing disabled,
`bind_depth_stencil_state` issues only the two disable calls — the depth
write-mask, the depth compare function and the stencil face state of the
bound `DepthStencil` value are not written, contradicting the claim that
every field is written on every call. -/
theorem bind_depth_stencil_counterexample :
    bind_depth_stencil_state
        ⟨false, true, .LessEqual, false, .KEEP, .KEEP⟩ =
      [.disable .DEPTH_TEST, .disable .STENCIL_TEST] ∧
    DSCall.depthMask true ∉
      bind_depth_stencil_state ⟨false, true, .LessEqual, false, .KEEP, .KEEP⟩ ∧
    DSCall.depthFunc .LessEqual ∉
      bind_depth_stencil_state ⟨false, true, .LessEqual, false, .KEEP, .KEEP⟩ ∧
    DSCall.stencilFuncSeparate .FRONT .Always 0 0xffffffff ∉
      bind_depth_stencil_state ⟨false, true, .LessEqual, false, .KEEP, .KEEP⟩ := by
  refine ⟨rfl, ?_, ?_, ?_⟩ <;> decide

/-- Claim C9 (amended): `bind_depth_stencil_state` replays each field group
exactly when its test flag is set: when `depth_test` is true the depth
enable, write-mask and compare function are all written, otherwise only the
depth disable; when `stencil_test` is true the stencil enable and the
front-face and back-face compare/reference/mask and operation triples are all
written, otherwise only the stencil disable. -/
theorem bind_depth_stencil_groups (s : DepthStencil) :
    ((DSCall.enable .DEPTH_TEST ∈ bind_depth_stencil_state s) ↔ s.depth_test = true) ∧
    ((DSCall.disable .DEPTH_TEST ∈ bind_depth_stencil_state s) ↔ s.depth_test = false) ∧
    ((DSCall.depthMask s.depth_write ∈ bind_depth_stencil_state s) ↔
      s.depth_test = true) ∧
    ((DSCall.depthFunc s.depth_compare_op ∈ bind_depth_stencil_state s) ↔
      s.depth_test = true) ∧
    ((DSCall.enable .STENCIL_TEST ∈ bind_depth_stencil_state s) ↔
      s.stencil_test = true) ∧
    ((DSCall.disable .STENCIL_TEST ∈ bind_depth_stencil_state s) ↔
      s.stencil_test = false) ∧
    ((DSCall.stencilFuncSeparate .FRONT s.stencil_front.compare_op
        s.stencil_front.reference s.stencil_front.compare_mask ∈
        bind_depth_stencil_state s) ↔ s.stencil_test = true) ∧
    ((DSCall.stencilOpSeparate .FRONT s.stencil_front.fail
        s.stencil_front.depth_fail s.stencil_front.pass ∈
        bind_depth_stencil_state s) ↔ s.stencil_test = true) ∧
    ((DSCall.stencilFuncSeparate .BACK s.stencil_back.compare_op
        s.stencil_back.reference s.stencil_back.compare_mask ∈
        bind_depth_stencil_state s) ↔ s.stencil_test = true) ∧
    ((DSCall.stencilOpSeparate .BACK s.stencil_back.fail
        s.stencil_back.depth_fail s.stencil_back.pass ∈
        bind_depth_stencil_state s) ↔ s.stencil_test = true) := by
  cases hd : s.depth_test <;> cases hs : s.stencil_test <;>
    simp [bind_depth_stencil_state, hd, hs]

/-- Claim C8 counterexample: a shader whose compilation fails (compile status
false, non-empty log) is still returned as a success value carrying the
handle, and likewise for a graphics pipeline whose link fails — no typed
error is surfaced. -/
theorem create_shader_failure_counterexample :
    (create_shader ⟨false, 7, false, "type mismatch"⟩).1 = Except.ok ⟨7⟩ ∧
    (create_graphics_pipeline ⟨false, 9, false, "link error"⟩).1 = Except.ok ⟨9⟩ := by
  exact ⟨rfl, rfl⟩

/-- Claim C8 (amended): when object creation itself does not report
out-of-memory, `create_shader` and `create_graphics_pipeline` return `Ok`
with the handle regardless of compile/link status; a failed compile or link
is reported only by printing a diagnostic (and the log, when non-empty) to
stdout. The only typed error is `OutOfMemory`, produced when object creation
reports it, and it carries neither a handle nor a log. -/
theorem create_shader_failure_prints (env : ShaderEnv) (penv : PipelineEnv) :
    (env.create_out_of_memory = false →
      (create_shader env).1 = Except.ok ⟨env.handle⟩ ∧
      (env.compile_status = false → PrintEvent.compileFailed ∈ (create_shader env).2) ∧
      (env.info_log ≠ "" → PrintEvent.shaderInfoLog env.info_log ∈ (create_shader env).2)) ∧
    (env.create_out_of_memory = true →
      (create_shader env).1 = Except.error GrrError.OutOfMemory) ∧
    (penv.create_out_of_memory = false →
      (create_graphics_pipeline penv).1 = Except.ok ⟨penv.handle⟩ ∧
      (penv.link_status = false →
        PrintEvent.linkFailed ∈ (create_graphics_pipeline penv).2)) ∧
    (∀ e : GrrError, e = GrrError.OutOfMemory) := by
  refine ⟨?_, ?_, ?_, fun e => by cases e; rfl⟩
  · intro hc
    refine ⟨?_, ?_, ?_⟩
    · simp [create_shader, hc]
    · intro hs; simp [create_shader, hc, hs]
    · intro hl; simp [create_shader, hc, hl]
  · intro hc; simp [create_shader, hc]
  · intro hc
    refine ⟨?_, ?_⟩
    · simp [create_graphics_pipeline, hc]
    · intro hs; simp [create_graphics_pipeline, hc, hs]

/-- Witness for the amended C8 at a concrete failed-compile environment. -/
theorem create_shader_failure_prints_witness :
    (create_shader ⟨false, 7, false, "type mismatch"⟩).1 = Except.ok ⟨7⟩ ∧
    PrintEvent.compileFailed ∈ (create_shader ⟨false, 7, false, "type mismatch"⟩).2 :=
  ⟨((create_shader_failure_prints ⟨false, 7, false, "type mismatch"⟩
      ⟨false, 9, false, "link error"⟩).1 rfl).1,
   ((create_shader_failure_prints ⟨false, 7, false, "type mismatch"⟩
      ⟨false, 9, false, "link error"⟩).1 rfl).2.1 rfl⟩

/-- Claim C10: every singular deletion operation issues exactly the
underlying calls of its batch counterpart applied to the one-element slice:
one batched deletion call on the singleton raw id. -/
theorem delete_single_eq_batch
    (b : Buffer) (img : Image) (v : ImageView) (vao : VertexArray) :
    delete_buffer b = delete_buffers [b] ∧
    delete_buffer b = [.deleteBuffers [b.raw]] ∧
    delete_image img = delete_images [img] ∧
    delete_image img = [.deleteTextures [img.raw]] ∧
    delete_image_view v = delete_image_views [v] ∧
    delete_image_view v = [.deleteTextures [v.raw]] ∧
    delete_vertex_array vao = delete_vertex_arrays [vao] ∧
    delete_vertex_array vao = [.deleteVertexArrays [vao.raw]] := by
  exact ⟨rfl, rfl, rfl, rfl, rfl, rfl, rfl, rfl⟩

/-- Witness for C2 at memory flags `DEVICE_LOCAL | CPU_MAP_READ` (`0x5`) and
mapping request `UNSYNCHRONIZED` (`0x1`). -/
theorem map_buffer_flags_capped_witness :
    map_buffer_flags (create_buffer_flags 0x5) 0x1 =
        (if flagsContains 0x1 MappingFlags.UNSYNCHRONIZED
          then MAP_UNSYNCHRONIZED_BIT else 0) |||
        (create_buffer_flags 0x5 &&& mapMask) ∧
      (flagsContains (map_buffer_flags (create_buffer_flags 0x5) 0x1) MAP_READ_BIT =
        flagsContains 0x5 MemoryFlags.CPU_MAP_READ) ∧
      (flagsContains (map_buffer_flags (create_buffer_flags 0x5) 0x1) MAP_WRITE_BIT =
        flagsContains 0x5 MemoryFlags.CPU_MAP_WRITE) :=
  map_buffer_flags_capped 0x5 (by decide) 0x1 (by decide)
